import Mathlib

/-!
Verification of the batch data-loading utility in `src/load.py`.

The development shallowly embeds the code of `src/load.py`:

* Python values that can appear in a basket-item mapping are modelled by the
  mutual inductive family `PyVal` / `PyList` / `PyEntries` (dictionaries are
  association lists of string keys, tuples and lists are kept distinct, as in
  Python).
* `json.dumps(v, sort_keys=True)` followed by string comparison is modelled by
  the function `dumps` into the canonical JSON tree family `JVal` / `JList` /
  `JEntries`: two Python values produce the same JSON text exactly when their
  `dumps` trees are equal, because `dumps` sorts every dictionary by key
  (Python sorts strings by code point, which is the lexicographic order on
  `String.data` used here) and JSON rendering of a canonical tree is injective.
* `json.loads` is modelled by `loads`.
* `uuid.uuid4()` (external library) is modelled by an injective supply of fresh
  non-empty identifier strings `genUuid`, indexed by a supply counter that the
  embedding threads through list comprehensions; distinct draws are distinct,
  which is the property the code relies on.
* the `src.models` ORM classes and the `src.cache` module are absent from the
  repository snapshot; `Product`, `Location`, `BasketItem` records and the
  `cache` mapping operations are modelled from the spec, as noted on their
  declarations.
* the SQLAlchemy session is modelled by an explicit state (`ScopeState`):
  persisted rows, staged rows, the connection `info` mapping and the shared
  cache, with a query counter.  A `with session_context_manager(...)` body is
  a list of commands (`Cmd`) interpreted over that state.
-/

mutual
/-- Python values that may appear in a (JSON-serializable) product-attribute
mapping: `None`, `bool`, `int`, `str`, `list`, `tuple`, and `dict` with string
keys.  Dictionaries are association lists; Python guarantees key uniqueness,
which concrete inputs in this file respect. -/
inductive PyVal where
  | pnull
  | pbool (b : Bool)
  | pint (n : Int)
  | pstr (s : String)
  | plist (l : PyList)
  | ptuple (l : PyList)
  | pdict (es : PyEntries)
deriving DecidableEq

/-- A Python list/tuple payload. -/
inductive PyList where
  | nil
  | cons (v : PyVal) (l : PyList)
deriving DecidableEq

/-- The entries of a Python dictionary with string keys, in insertion order. -/
inductive PyEntries where
  | nil
  | cons (k : String) (v : PyVal) (es : PyEntries)
deriving DecidableEq
end

mutual
/-- Canonical JSON trees: the image of `json.dumps(v, sort_keys=True)`.
Equality of `JVal` trees models equality of the dumped JSON strings. -/
inductive JVal where
  | jnull
  | jbool (b : Bool)
  | jint (n : Int)
  | jstr (s : String)
  | jarr (l : JList)
  | jobj (es : JEntries)
deriving DecidableEq

/-- A JSON array payload. -/
inductive JList where
  | nil
  | cons (v : JVal) (l : JList)
deriving DecidableEq

/-- The entries of a JSON object, sorted by key in canonical trees. -/
inductive JEntries where
  | nil
  | cons (k : String) (v : JVal) (es : JEntries)
deriving DecidableEq
end

/-- Python string order (code-point lexicographic), as used by
`json.dumps(..., sort_keys=True)`: lexicographic order on the character
lists. -/
def strLe (a b : String) : Prop := a.data ≤ b.data

instance : DecidableRel strLe := fun a b => inferInstanceAs (Decidable (a.data ≤ b.data))

/-- Conversion from a Lean list of values to the embedded Python list. -/
def PyList.ofList : List PyVal → PyList
  | [] => .nil
  | v :: l => .cons v (PyList.ofList l)

/-- Conversion from a Lean association list to embedded Python dict entries. -/
def PyEntries.ofList : List (String × PyVal) → PyEntries
  | [] => .nil
  | (k, v) :: es => .cons k v (PyEntries.ofList es)

/-- The entries of an embedded JSON object as a Lean association list. -/
def JEntries.toList : JEntries → List (String × JVal)
  | .nil => []
  | .cons k v es => (k, v) :: JEntries.toList es

/-- The entries of an embedded Python dict as a Lean association list. -/
def PyEntries.toList : PyEntries → List (String × PyVal)
  | .nil => []
  | .cons k v es => (k, v) :: PyEntries.toList es

/-- Insertion into a key-sorted JSON object entry list. -/
def jinsert (k : String) (v : JVal) : JEntries → JEntries
  | .nil => .cons k v .nil
  | .cons k2 v2 es =>
      if strLe k k2 then .cons k v (.cons k2 v2 es) else .cons k2 v2 (jinsert k v es)

/-- Key insertion sort for JSON object entries, modelling `sort_keys=True`. -/
def jsortEntries : JEntries → JEntries
  | .nil => .nil
  | .cons k v es => jinsert k v (jsortEntries es)

/-- Insertion into a key-sorted Python dict entry list. -/
def pinsert (k : String) (v : PyVal) : PyEntries → PyEntries
  | .nil => .cons k v .nil
  | .cons k2 v2 es =>
      if strLe k k2 then .cons k v (.cons k2 v2 es) else .cons k2 v2 (pinsert k v es)

/-- Key insertion sort for Python dict entries. -/
def psortEntries : PyEntries → PyEntries
  | .nil => .nil
  | .cons k v es => pinsert k v (psortEntries es)

mutual
/-- Embedding of `json.dumps(v, sort_keys=True)`: serialize a Python value to
its canonical JSON tree.  Tuples serialize as arrays; every dictionary is
sorted by key, so equal trees correspond exactly to equal JSON strings. -/
def dumps : PyVal → JVal
  | .pnull => .jnull
  | .pbool b => .jbool b
  | .pint n => .jint n
  | .pstr s => .jstr s
  | .plist l => .jarr (dumpsList l)
  | .ptuple l => .jarr (dumpsList l)
  | .pdict es => .jobj (jsortEntries (dumpsEntries es))
termination_by structural v => v

/-- Serialization of the elements of a Python list or tuple. -/
def dumpsList : PyList → JList
  | .nil => .nil
  | .cons v l => .cons (dumps v) (dumpsList l)
termination_by structural l => l

/-- Serialization of Python dict entries (before key sorting). -/
def dumpsEntries : PyEntries → JEntries
  | .nil => .nil
  | .cons k v es => .cons k (dumps v) (dumpsEntries es)
termination_by structural es => es
end

mutual
/-- Embedding of `json.loads` on the canonical JSON trees produced by `dumps`:
arrays become Python lists (never tuples) and objects become dictionaries in
the (sorted) order of the JSON text. -/
def loads : JVal → PyVal
  | .jnull => .pnull
  | .jbool b => .pbool b
  | .jint n => .pint n
  | .jstr s => .pstr s
  | .jarr l => .plist (loadsList l)
  | .jobj es => .pdict (loadsEntries es)
termination_by structural j => j

/-- Deserialization of a JSON array payload. -/
def loadsList : JList → PyList
  | .nil => .nil
  | .cons v l => .cons (loads v) (loadsList l)
termination_by structural l => l

/-- Deserialization of JSON object entries. -/
def loadsEntries : JEntries → PyEntries
  | .nil => .nil
  | .cons k v es => .cons k (loads v) (loadsEntries es)
termination_by structural es => es
end

mutual
/-- Modelled from the spec's words (component 4.1): the key-order normal form
of a Python value, used to state "full structural equality regardless of key
order": every dictionary, anywhere in the value, is put into key-sorted order
while everything else (in particular the list/tuple distinction and all
values) is kept intact. -/
def canonPy : PyVal → PyVal
  | .pnull => .pnull
  | .pbool b => .pbool b
  | .pint n => .pint n
  | .pstr s => .pstr s
  | .plist l => .plist (canonPyList l)
  | .ptuple l => .ptuple (canonPyList l)
  | .pdict es => .pdict (psortEntries (canonPyEntries es))
termination_by structural v => v

/-- Key-order normal form of the elements of a list or tuple. -/
def canonPyList : PyList → PyList
  | .nil => .nil
  | .cons v l => .cons (canonPy v) (canonPyList l)
termination_by structural l => l

/-- Key-order normal form of dict entries (before sorting the keys). -/
def canonPyEntries : PyEntries → PyEntries
  | .nil => .nil
  | .cons k v es => .cons k (canonPy v) (canonPyEntries es)
termination_by structural es => es
end

/-- Modelled from the spec's words (component 4.1): two mappings are
"structurally equal regardless of key order" when their key-order normal
forms coincide. -/
def pyStructEq (x y : PyVal) : Prop := canonPy x = canonPy y

instance : DecidableRel pyStructEq := fun x y =>
  inferInstanceAs (Decidable (canonPy x = canonPy y))

/-- Embedding of `_deduplicate_products` (src/load.py line 23): each mapping is
serialized with `json.dumps(..., sort_keys=True)`, the serialized strings are
placed in a set (removing duplicates), and each surviving string is parsed
back with `json.loads`.  The iteration order of a Python set is unspecified;
it is modelled by `List.dedup`, and every property proved about the result is
order-independent. -/
def _deduplicate_products (li : List PyVal) : List PyVal :=
  ((li.map dumps).dedup).map loads

/-- A basket-item mapping as described by the input contract (spec section 6):
a product-attribute dictionary with the keys `name`, `flavour`, `size` and
`iced`.  Key order in the concrete Python dictionary is immaterial because
`_deduplicate_products` serializes with sorted keys. -/
structure BasketAttrs where
  name : String
  flavour : String
  size : String
  iced : Bool
deriving DecidableEq

/-- The Python dictionary carried by a basket item. -/
def BasketAttrs.toPy (b : BasketAttrs) : PyVal :=
  .pdict (PyEntries.ofList
    [("name", .pstr b.name), ("flavour", .pstr b.flavour),
     ("size", .pstr b.size), ("iced", .pbool b.iced)])

/-- An input transaction dictionary (spec section 6): upstream-supplied
identifier, timestamp, location name, payment-type string, card details,
total and the basket of product-attribute mappings. -/
structure InputTransaction where
  id : String
  datetime : String
  location : String
  payment_type : String
  card_details : String
  transaction_total : Int
  basket : List BasketAttrs
deriving DecidableEq

/-- Modelled from the spec: `str(uuid4())` (external library) is an injective
supply of distinct, non-empty identifier strings; `genUuid n` is the n-th
draw of the supply.  The embedding threads the supply counter through the
list comprehensions that call `get_uuid()`. -/
def genUuid (n : Nat) : String := String.mk (List.replicate (n + 1) 'u')

/-- Lookup of a key in embedded Python dict entries (first binding wins, as
in a Python dict without duplicate keys). -/
def PyEntries.lookup : PyEntries → String → Option PyVal
  | .nil, _ => none
  | .cons k v es, key => if k = key then some v else PyEntries.lookup es key

/-- Read a string attribute out of a product mapping (total model: a missing
or non-string entry yields `""`; the pipeline only applies this to mappings
that carry the attribute as a string). -/
def pyGetStr (v : PyVal) (key : String) : String :=
  match v with
  | .pdict es =>
      match es.lookup key with
      | some (.pstr s) => s
      | _ => ""
  | _ => ""

/-- Read a boolean attribute out of a product mapping (total model, as for
`pyGetStr`). -/
def pyGetBool (v : PyVal) (key : String) : Bool :=
  match v with
  | .pdict es =>
      match es.lookup key with
      | some (.pbool b) => b
      | _ => false
  | _ => false

/-- Modelled from the spec (data model, section 3): the `Product` record of
`src.models` (absent from src/): the four identity attributes plus the
generated unique identifier. -/
structure Product where
  id : String
  name : String
  flavour : String
  size : String
  iced : Bool
deriving DecidableEq

/-- Modelled from the spec (data model, section 3): the `Location` record of
`src.models` (absent from src/): a name plus the generated identifier. -/
structure Location where
  id : String
  name : String
deriving DecidableEq

/-- Modelled from the spec (data model, section 3): the `BasketItem` record of
`src.models` (absent from src/): link of a transaction to a product. -/
structure BasketItem where
  id : String
  transaction_id : String
  product_id : String
deriving DecidableEq

/-- The `Product(**dict(product, **{"id": str(get_uuid())}))` construction of
`get_unique_products`: the attributes are read from the mapping and the
generated identifier is attached. -/
def product_of_dict (v : PyVal) (i : String) : Product :=
  { id := i, name := pyGetStr v "name", flavour := pyGetStr v "flavour",
    size := pyGetStr v "size", iced := pyGetBool v "iced" }

/-- The list comprehension of `get_unique_products`: wrap each deduplicated
mapping into a `Product`, drawing one fresh identifier per element. -/
def labelProducts : List PyVal → Nat → List Product
  | [], _ => []
  | v :: rest, n => product_of_dict v (genUuid n) :: labelProducts rest (n + 1)

/-- Embedding of `get_unique_products` (src/load.py line 32): flatten all the
baskets of the transaction list, deduplicate the product mappings, and wrap
each survivor into a `Product` with a fresh identifier.  `n0` is the uuid
supply counter. -/
def get_unique_products (transactions : List InputTransaction) (n0 : Nat) : List Product :=
  labelProducts
    (_deduplicate_products
      (((transactions.map InputTransaction.basket).flatten).map BasketAttrs.toPy))
    n0

/-- The list comprehension of `get_locations`: one `Location` with a fresh
identifier per distinct location name. -/
def labelLocations : List String → Nat → List Location
  | [], _ => []
  | name :: rest, n => { id := genUuid n, name := name } :: labelLocations rest (n + 1)

/-- Embedding of `get_locations` (src/load.py line 55): collect the set of
`location` values of the transactions (set iteration order is unspecified in
Python; modelled by `List.dedup`, and the properties proved are
order-independent) and wrap each into a `Location` with a fresh
identifier. -/
def get_locations (transactions : List InputTransaction) (n0 : Nat) : List Location :=
  labelLocations ((transactions.map InputTransaction.location).dedup) n0

/-- Modelled from the spec (component 4.3): the shared in-process memoization
cache of `src.cache` (absent from src/), a single mutable mapping from cache
keys to identifiers.  Represented as an association list where the most
recent binding of a key comes first. -/
abbrev Cache := List (String × String)

/-- Modelled from the spec: `cache.get(key)` returns the cached identifier or
`None` when the key is absent. -/
def cacheGet (c : Cache) (k : String) : Option String :=
  (c.find? (fun p => p.1 == k)).map (fun p => p.2)

/-- Modelled from the spec: `cache.add(key, value)` stores a binding in the
shared mapping. -/
def cacheAdd (c : Cache) (k v : String) : Cache := (k, v) :: c

/-- Python truthiness of the `result` variable in the resolvers: `None`
(missing key) and the empty string are falsy, so `if not result:` in the
source takes the query branch exactly on these. -/
def pyFalsy : Option String → Bool
  | none => true
  | some s => s == ""

/-- Python `str()` applied to the `iced` flag when the cache key is built:
`str(True)` is `"True"` and `str(False)` is `"False"`. -/
def pyBoolStr : Bool → String
  | true => "True"
  | false => "False"

/-- The cache key built by `_get_existing_product_id` (src/load.py line 75):
the comma-space join of the stringified `name`, `flavour`, `size` and `iced`
values of the basket item. -/
def product_cache_key (basket_item : BasketAttrs) : String :=
  basket_item.name ++ ", " ++ basket_item.flavour ++ ", " ++ basket_item.size
    ++ ", " ++ pyBoolStr basket_item.iced

/-- The relational rows relevant to the embedded operations: the Product and
Location tables that the resolvers query, and the BasketItem rows staged by
the callers. -/
structure DB where
  products : List Product
  locations : List Location
  basket_items : List BasketItem
deriving DecidableEq

/-- A database with no rows. -/
def emptyDB : DB := { products := [], locations := [], basket_items := [] }

/-- Committing appends every staged row group to the persisted rows. -/
def mergeDB (a b : DB) : DB :=
  { products := a.products ++ b.products,
    locations := a.locations ++ b.locations,
    basket_items := a.basket_items ++ b.basket_items }

instance {e a : Type} [DecidableEq e] [DecidableEq a] : DecidableEq (Except e a) :=
  fun x y =>
    match x, y with
    | .ok v, .ok w =>
        if h : v = w then .isTrue (by rw [h]) else .isFalse (by intro hc; cases hc; exact h rfl)
    | .error v, .error w =>
        if h : v = w then .isTrue (by rw [h]) else .isFalse (by intro hc; cases hc; exact h rfl)
    | .ok _, .error _ => .isFalse (by intro hc; cases hc)
    | .error _, .ok _ => .isFalse (by intro hc; cases hc)

/-- Embedding of SQLAlchemy `Query.one()` (external library, per the spec's
resolver contract): exactly one row is returned; zero rows fail with
`NoResultFound` and several rows with `MultipleResultsFound`. -/
def queryOne (rows : List String) : Except String String :=
  match rows with
  | [] => .error "NoResultFound"
  | [r] => .ok r
  | _ => .error "MultipleResultsFound"

/-- The rows produced by
`session.query(Product.id).filter_by(name=..., flavour=..., size=..., iced=...)`:
exact-match filtering of the persisted Product rows on all four attributes. -/
def productQuery (db : DB) (b : BasketAttrs) : List String :=
  (db.products.filter (fun r =>
    r.name == b.name && r.flavour == b.flavour && r.size == b.size && r.iced == b.iced)).map
    (fun r => r.id)

/-- The rows produced by `session.query(Location.id).filter_by(name=...)`. -/
def locationQuery (db : DB) (name : String) : List String :=
  (db.locations.filter (fun r => r.name == name)).map (fun r => r.id)

/-- Embedding of `_get_existing_product_id` (src/load.py line 73): build the
cache key, test the cached value for truthiness, and on the falsy branch run
the exact-match query, caching the identifier on success.  Returns the
result, the new cache, and the number of queries issued (0 or 1). -/
def _get_existing_product_id (db : DB) (c : Cache) (basket_item : BasketAttrs) :
    Except String String × Cache × Nat :=
  let query_cache_key := product_cache_key basket_item
  let result := cacheGet c query_cache_key
  if pyFalsy result then
    match queryOne (productQuery db basket_item) with
    | .ok i => (.ok i, cacheAdd c query_cache_key i, 1)
    | .error e => (.error e, c, 1)
  else
    (.ok (result.getD ""), c, 0)

/-- Embedding of `_get_existing_location_id` (src/load.py line 112): the cache
key is `str(transaction["location"])`, which is the location name itself
(`str` on a string is the identity).  Same shape as the product resolver. -/
def _get_existing_location_id (db : DB) (c : Cache) (transaction_location : String) :
    Except String String × Cache × Nat :=
  let query_cache_key := transaction_location
  let result := cacheGet c query_cache_key
  if pyFalsy result then
    match queryOne (locationQuery db transaction_location) with
    | .ok i => (.ok i, cacheAdd c query_cache_key i, 1)
    | .error e => (.error e, c, 1)
  else
    (.ok (result.getD ""), c, 0)

/-- The `conn.info` dictionary of the SQLAlchemy connection, restricted to the
single key `"ignore_tables"` that this code ever touches: `none` models the
key being absent. -/
structure ConnInfo where
  ignore_tables : Option (List String)
deriving DecidableEq

/-- The state threaded through a transactional scope: committed rows, rows
staged in the open session, the shared resolver cache, the connection `info`
mapping, and a counter of the queries issued so far. -/
structure ScopeState where
  persisted : DB
  staged : DB
  cache : Cache
  conn : ConnInfo
  queries : Nat
deriving DecidableEq

/-- One step of a `with session_context_manager(...)` body: staging rows via
`insert_many` / `session.add_all`, resolving an identifier via one of the two
resolver helpers, or an arbitrary error raised by the caller's code. -/
inductive Cmd where
  | add_products (ps : List Product)
  | add_locations (ls : List Location)
  | add_basket_items (bs : List BasketItem)
  | resolve_product (b : BasketAttrs)
  | resolve_location (name : String)
  | failWith (e : String)
deriving DecidableEq

/-- Interpretation of one body step over the scope state.  Staging only adds
to the staged rows; a resolver step updates the cache and query counter and
may fail; `failWith` raises.  The first component is the raised error, if
any. -/
def runCmd (s : ScopeState) : Cmd → Option String × ScopeState
  | .add_products ps =>
      (none, { s with staged := { s.staged with products := s.staged.products ++ ps } })
  | .add_locations ls =>
      (none, { s with staged := { s.staged with locations := s.staged.locations ++ ls } })
  | .add_basket_items bs =>
      (none, { s with staged := { s.staged with basket_items := s.staged.basket_items ++ bs } })
  | .resolve_product b =>
      match _get_existing_product_id s.persisted s.cache b with
      | (.ok _, c, q) => (none, { s with cache := c, queries := s.queries + q })
      | (.error e, c, q) => (some e, { s with cache := c, queries := s.queries + q })
  | .resolve_location name =>
      match _get_existing_location_id s.persisted s.cache name with
      | (.ok _, c, q) => (none, { s with cache := c, queries := s.queries + q })
      | (.error e, c, q) => (some e, { s with cache := c, queries := s.queries + q })
  | .failWith e => (some e, s)

/-- Interpretation of a body: run the steps in order, stopping at the first
raised error (whose state records the mutations made up to the raise, as in
Python). -/
def runCmds : List Cmd → ScopeState → Option String × ScopeState
  | [], s => (none, s)
  | c :: cs, s =>
      match runCmd s c with
      | (none, s1) => runCmds cs s1
      | (some e, s1) => (some e, s1)

/-- Embedding of `session_context_manager` (src/load.py line 153).  The saved
`previous` value of `conn.info["ignore_tables"]` is computed, as in the
source, but never written back anywhere: the restoration announced by the
comment in the source does not happen.  On success the staged rows are
committed; on an error the staged rows are rolled back, the same error is
re-raised, and in either case the session is closed (third component).
`set(ignore_tables)` is modelled by `List.dedup`. -/
def session_context_manager (ignore_tables : List String) (body : List Cmd) (s0 : ScopeState) :
    Option String × ScopeState × Bool :=
  let info := s0.conn
  let _previous := (info.ignore_tables).getD []
  let s1 : ScopeState := { s0 with conn := { ignore_tables := some ignore_tables.dedup } }
  match runCmds body s1 with
  | (none, s2) =>
      (none, { s2 with persisted := mergeDB s2.persisted s2.staged, staged := emptyDB }, true)
  | (some e, s2) =>
      (some e, { s2 with staged := emptyDB }, true)

/-- Keys of embedded JSON object entries are in non-decreasing Python string
order (adjacent comparisons). -/
inductive JKeysSorted : JEntries → Prop where
  | nil : JKeysSorted .nil
  | single (k : String) (v : JVal) : JKeysSorted (.cons k v .nil)
  | cons (k : String) (v : JVal) (k2 : String) (v2 : JVal) (es : JEntries) :
      strLe k k2 → JKeysSorted (.cons k2 v2 es) → JKeysSorted (.cons k v (.cons k2 v2 es))

/-- Keys of embedded Python dict entries are in non-decreasing string order. -/
inductive PKeysSorted : PyEntries → Prop where
  | nil : PKeysSorted .nil
  | single (k : String) (v : PyVal) : PKeysSorted (.cons k v .nil)
  | cons (k : String) (v : PyVal) (k2 : String) (v2 : PyVal) (es : PyEntries) :
      strLe k k2 → PKeysSorted (.cons k2 v2 es) → PKeysSorted (.cons k v (.cons k2 v2 es))

mutual
/-- Canonical JSON trees: every object, anywhere in the tree, has its keys in
sorted order.  The trees produced by `dumps` are exactly of this shape, which
is what makes tree equality model JSON text equality. -/
inductive JCanon : JVal → Prop where
  | null : JCanon .jnull
  | bool (b : Bool) : JCanon (.jbool b)
  | int (n : Int) : JCanon (.jint n)
  | str (s : String) : JCanon (.jstr s)
  | arr (l : JList) : JCanonList l → JCanon (.jarr l)
  | obj (es : JEntries) : JKeysSorted es → JCanonEs es → JCanon (.jobj es)

/-- All elements of a JSON array payload are canonical. -/
inductive JCanonList : JList → Prop where
  | nil : JCanonList .nil
  | cons (v : JVal) (l : JList) : JCanon v → JCanonList l → JCanonList (.cons v l)

/-- All values of JSON object entries are canonical. -/
inductive JCanonEs : JEntries → Prop where
  | nil : JCanonEs .nil
  | cons (k : String) (v : JVal) (es : JEntries) :
      JCanon v → JCanonEs es → JCanonEs (.cons k v es)
end

/-- A Python value is fixed by the JSON round trip: `json.loads(json.dumps(x))`
returns `x` itself.  Values containing tuples (which become lists) or
dictionaries whose stored order is not the sorted key order are not fixed. -/
def RoundTripFixed (x : PyVal) : Prop := loads (dumps x) = x

/-- The identity key of a `Product` record: the full combination of
(name, flavour, size, iced), per the spec's data model. -/
def attrsOf (p : Product) : String × String × String × Bool :=
  (p.name, p.flavour, p.size, p.iced)

theorem strLe_total (a b : String) : strLe a b ∨ strLe b a := le_total a.data b.data

theorem strLe_of_not (a b : String) (h : ¬ strLe a b) : strLe b a := le_of_not_le h

theorem jinsert_toList_perm (k : String) (v : JVal) :
    ∀ es : JEntries, (jinsert k v es).toList.Perm ((k, v) :: es.toList)
  | .nil => by simp [jinsert, JEntries.toList]
  | .cons k2 v2 es => by
      by_cases h : strLe k k2
      · simp only [jinsert, if_pos h]
        exact List.Perm.refl _
      · simp only [jinsert, if_neg h, JEntries.toList]
        exact ((jinsert_toList_perm k v es).cons _).trans
          (List.Perm.swap (k, v) (k2, v2) es.toList)
termination_by structural es => es

theorem jsort_toList_perm : ∀ es : JEntries, (jsortEntries es).toList.Perm es.toList
  | .nil => by simp [jsortEntries]
  | .cons k v es =>
      (jinsert_toList_perm k v (jsortEntries es)).trans ((jsort_toList_perm es).cons (k, v))
termination_by structural es => es

theorem jKeysSorted_jinsert (k : String) (v : JVal) {es : JEntries} (h : JKeysSorted es) :
    JKeysSorted (jinsert k v es) := by
  induction h with
  | nil => exact .single k v
  | single k2 v2 =>
      by_cases hle : strLe k k2
      · simpa [jinsert, hle] using JKeysSorted.cons k v k2 v2 .nil hle (.single k2 v2)
      · simpa [jinsert, hle] using
          JKeysSorted.cons k2 v2 k v .nil (strLe_of_not k k2 hle) (.single k v)
  | cons k2 v2 k3 v3 es hle h ih =>
      by_cases h2 : strLe k k2
      · simpa [jinsert, h2] using
          JKeysSorted.cons k v k2 v2 (.cons k3 v3 es) h2 (.cons k2 v2 k3 v3 es hle h)
      · by_cases h3 : strLe k k3
        · simp only [jinsert, if_neg h2, if_pos h3] at ih ⊢
          exact .cons k2 v2 k v (.cons k3 v3 es) (strLe_of_not k k2 h2) ih
        · simp only [jinsert, if_neg h2, if_neg h3] at ih ⊢
          exact .cons k2 v2 k3 v3 (jinsert k v es) hle ih

theorem jKeysSorted_jsort : ∀ es : JEntries, JKeysSorted (jsortEntries es)
  | .nil => .nil
  | .cons k v es => jKeysSorted_jinsert k v (jKeysSorted_jsort es)
termination_by structural es => es

theorem jsort_eq_of_sorted {es : JEntries} (h : JKeysSorted es) : jsortEntries es = es := by
  induction h with
  | nil => rfl
  | single k v => rfl
  | cons k v k2 v2 es hle h ih =>
      show jinsert k v (jsortEntries (.cons k2 v2 es)) = _
      rw [ih, jinsert, if_pos hle]

theorem jCanonEs_jinsert (k : String) {v : JVal} (hv : JCanon v) :
    ∀ es : JEntries, JCanonEs es → JCanonEs (jinsert k v es)
  | .nil, _ => .cons k v .nil hv .nil
  | .cons k2 v2 es, h => by
      cases h with
      | cons _ _ _ hv2 hes =>
          by_cases hle : strLe k k2
          · simpa [jinsert, hle] using JCanonEs.cons k v _ hv (.cons k2 v2 es hv2 hes)
          · simpa [jinsert, hle] using
              JCanonEs.cons k2 v2 _ hv2 (jCanonEs_jinsert k hv es hes)
termination_by structural es => es

theorem jCanonEs_jsort : ∀ es : JEntries, JCanonEs es → JCanonEs (jsortEntries es)
  | .nil, _ => .nil
  | .cons k v es, h => by
      cases h with
      | cons _ _ _ hv hes => exact jCanonEs_jinsert k hv _ (jCanonEs_jsort es hes)
termination_by structural es => es

theorem pKeysSorted_loadsEntries {es : JEntries} (h : JKeysSorted es) :
    PKeysSorted (loadsEntries es) := by
  induction h with
  | nil => exact .nil
  | single k v => exact .single k (loads v)
  | cons k v k2 v2 es hle h ih =>
      simpa [loadsEntries] using
        PKeysSorted.cons k (loads v) k2 (loads v2) (loadsEntries es) hle (by simpa [loadsEntries] using ih)

theorem psort_eq_of_sorted {es : PyEntries} (h : PKeysSorted es) : psortEntries es = es := by
  induction h with
  | nil => rfl
  | single k v => rfl
  | cons k v k2 v2 es hle h ih =>
      show pinsert k v (psortEntries (.cons k2 v2 es)) = _
      rw [ih, pinsert, if_pos hle]

mutual
theorem jCanon_dumps : ∀ v : PyVal, JCanon (dumps v)
  | .pnull => .null
  | .pbool b => .bool b
  | .pint n => .int n
  | .pstr s => .str s
  | .plist l => .arr _ (jCanonList_dumpsList l)
  | .ptuple l => .arr _ (jCanonList_dumpsList l)
  | .pdict es =>
      .obj _ (jKeysSorted_jsort _) (jCanonEs_jsort _ (jCanonEs_dumpsEntries es))
termination_by structural v => v

theorem jCanonList_dumpsList : ∀ l : PyList, JCanonList (dumpsList l)
  | .nil => .nil
  | .cons v l => .cons _ _ (jCanon_dumps v) (jCanonList_dumpsList l)
termination_by structural l => l

theorem jCanonEs_dumpsEntries : ∀ es : PyEntries, JCanonEs (dumpsEntries es)
  | .nil => .nil
  | .cons k v es => .cons k _ _ (jCanon_dumps v) (jCanonEs_dumpsEntries es)
termination_by structural es => es
end

mutual
theorem dumps_loads_canon : ∀ j : JVal, JCanon j → dumps (loads j) = j
  | .jnull, _ => rfl
  | .jbool _, _ => rfl
  | .jint _, _ => rfl
  | .jstr _, _ => rfl
  | .jarr l, h => by
      cases h with
      | arr _ hl =>
          show JVal.jarr (dumpsList (loadsList l)) = _
          rw [dumpsList_loadsList_canon l hl]
  | .jobj es, h => by
      cases h with
      | obj _ hs hes =>
          show JVal.jobj (jsortEntries (dumpsEntries (loadsEntries es))) = _
          rw [dumpsEntries_loadsEntries_canon es hes, jsort_eq_of_sorted hs]
termination_by structural j => j

theorem dumpsList_loadsList_canon : ∀ l : JList, JCanonList l → dumpsList (loadsList l) = l
  | .nil, _ => rfl
  | .cons v l, h => by
      cases h with
      | cons _ _ hv hl =>
          show JList.cons (dumps (loads v)) (dumpsList (loadsList l)) = _
          rw [dumps_loads_canon v hv, dumpsList_loadsList_canon l hl]
termination_by structural l => l

theorem dumpsEntries_loadsEntries_canon :
    ∀ es : JEntries, JCanonEs es → dumpsEntries (loadsEntries es) = es
  | .nil, _ => rfl
  | .cons k v es, h => by
      cases h with
      | cons _ _ _ hv hes =>
          show JEntries.cons k (dumps (loads v)) (dumpsEntries (loadsEntries es)) = _
          rw [dumps_loads_canon v hv, dumpsEntries_loadsEntries_canon es hes]
termination_by structural es => es
end

mutual
theorem canonPy_loads_canon : ∀ j : JVal, JCanon j → canonPy (loads j) = loads j
  | .jnull, _ => rfl
  | .jbool _, _ => rfl
  | .jint _, _ => rfl
  | .jstr _, _ => rfl
  | .jarr l, h => by
      cases h with
      | arr _ hl =>
          show PyVal.plist (canonPyList (loadsList l)) = PyVal.plist (loadsList l)
          rw [canonPyList_loadsList_canon l hl]
  | .jobj es, h => by
      cases h with
      | obj _ hs hes =>
          show PyVal.pdict (psortEntries (canonPyEntries (loadsEntries es)))
            = PyVal.pdict (loadsEntries es)
          rw [canonPyEntries_loadsEntries_canon es hes,
            psort_eq_of_sorted (pKeysSorted_loadsEntries hs)]
termination_by structural j => j

theorem canonPyList_loadsList_canon :
    ∀ l : JList, JCanonList l → canonPyList (loadsList l) = loadsList l
  | .nil, _ => rfl
  | .cons v l, h => by
      cases h with
      | cons _ _ hv hl =>
          show PyList.cons (canonPy (loads v)) (canonPyList (loadsList l))
            = PyList.cons (loads v) (loadsList l)
          rw [canonPy_loads_canon v hv, canonPyList_loadsList_canon l hl]
termination_by structural l => l

theorem canonPyEntries_loadsEntries_canon :
    ∀ es : JEntries, JCanonEs es → canonPyEntries (loadsEntries es) = loadsEntries es
  | .nil, _ => rfl
  | .cons k v es, h => by
      cases h with
      | cons _ _ _ hv hes =>
          show PyEntries.cons k (canonPy (loads v)) (canonPyEntries (loadsEntries es))
            = PyEntries.cons k (loads v) (loadsEntries es)
          rw [canonPy_loads_canon v hv, canonPyEntries_loadsEntries_canon es hes]
termination_by structural es => es
end

theorem canonPy_of_fixed {x : PyVal} (h : RoundTripFixed x) : canonPy x = x := by
  have h2 := canonPy_loads_canon (dumps x) (jCanon_dumps x)
  rw [RoundTripFixed] at h
  rw [← h, h2]

theorem dumps_eq_iff_structEq_of_fixed {x y : PyVal}
    (hx : RoundTripFixed x) (hy : RoundTripFixed y) :
    dumps x = dumps y ↔ pyStructEq x y := by
  constructor
  · intro h
    have : x = y := by
      rw [RoundTripFixed] at hx hy
      rw [← hx, ← hy, h]
    rw [pyStructEq, this]
  · intro h
    rw [pyStructEq, canonPy_of_fixed hx, canonPy_of_fixed hy] at h
    rw [h]

theorem mem_of_mem_dedup_dumps {li : List PyVal} {d : JVal}
    (h : d ∈ (li.map dumps).dedup) : ∃ m ∈ li, d = dumps m := by
  rcases List.mem_map.1 (List.mem_dedup.1 h) with ⟨m, hm, hd⟩
  exact ⟨m, hm, hd.symm⟩

theorem map_dumps_dedup (li : List PyVal) :
    (_deduplicate_products li).map dumps = (li.map dumps).dedup := by
  unfold _deduplicate_products
  rw [List.map_map]
  have h : ∀ d ∈ (li.map dumps).dedup, (dumps ∘ loads) d = id d := by
    intro d hd
    rcases mem_of_mem_dedup_dumps hd with ⟨m, _, rfl⟩
    exact dumps_loads_canon (dumps m) (jCanon_dumps m)
  rw [List.map_congr_left h, List.map_id]

theorem dedupe_map_dumps_nodup (li : List PyVal) :
    ((_deduplicate_products li).map dumps).Nodup := by
  rw [map_dumps_dedup]
  exact List.nodup_dedup _

theorem dedupe_nodup (li : List PyVal) : (_deduplicate_products li).Nodup :=
  (dedupe_map_dumps_nodup li).of_map

theorem dedupe_length_le (li : List PyVal) :
    (_deduplicate_products li).length ≤ li.length := by
  unfold _deduplicate_products
  calc ((li.map dumps).dedup.map loads).length
      = (li.map dumps).dedup.length := List.length_map _ _
    _ ≤ (li.map dumps).length := (List.dedup_sublist _).length_le
    _ = li.length := List.length_map _ _

theorem dedupe_represents (li : List PyVal) :
    ∀ m ∈ li, ∃ o ∈ _deduplicate_products li, dumps o = dumps m := by
  intro m hm
  refine ⟨loads (dumps m), ?_, dumps_loads_canon (dumps m) (jCanon_dumps m)⟩
  unfold _deduplicate_products
  exact List.mem_map.2 ⟨dumps m, List.mem_dedup.2 (List.mem_map.2 ⟨m, hm, rfl⟩), rfl⟩

theorem dedupe_from_input (li : List PyVal) :
    ∀ o ∈ _deduplicate_products li, ∃ m ∈ li, o = loads (dumps m) := by
  intro o ho
  unfold _deduplicate_products at ho
  rcases List.mem_map.1 ho with ⟨d, hd, rfl⟩
  rcases mem_of_mem_dedup_dumps hd with ⟨m, hm, rfl⟩
  exact ⟨m, hm, rfl⟩

theorem dumps_toPy (b : BasketAttrs) :
    dumps b.toPy =
      .jobj (.cons "flavour" (.jstr b.flavour) (.cons "iced" (.jbool b.iced)
        (.cons "name" (.jstr b.name) (.cons "size" (.jstr b.size) .nil)))) := rfl

theorem loads_dumps_toPy (b : BasketAttrs) :
    loads (dumps b.toPy) =
      .pdict (.cons "flavour" (.pstr b.flavour) (.cons "iced" (.pbool b.iced)
        (.cons "name" (.pstr b.name) (.cons "size" (.pstr b.size) .nil)))) := rfl

theorem product_of_dict_loads_dumps_toPy (b : BasketAttrs) (i : String) :
    product_of_dict (loads (dumps b.toPy)) i =
      { id := i, name := b.name, flavour := b.flavour, size := b.size, iced := b.iced } := rfl

theorem dumps_toPy_inj {b1 b2 : BasketAttrs} (h : dumps b1.toPy = dumps b2.toPy) :
    b1 = b2 := by
  rw [dumps_toPy, dumps_toPy] at h
  cases b1
  cases b2
  simp only [JVal.jobj.injEq, JEntries.cons.injEq, JVal.jstr.injEq, JVal.jbool.injEq,
    true_and] at h
  simp [h.1, h.2.1, h.2.2.1, h.2.2.2.1]

theorem genUuid_inj {m n : Nat} (h : genUuid m = genUuid n) : m = n := by
  have h2 : List.replicate (m + 1) 'u' = List.replicate (n + 1) 'u' :=
    congrArg String.data h
  have h3 := congrArg List.length h2
  simp only [List.length_replicate] at h3
  omega

theorem genUuid_ne_empty (n : Nat) : genUuid n ≠ "" := by
  intro h
  have h2 : List.replicate (n + 1) 'u' = ([] : List Char) :=
    congrArg String.data h
  have h3 := congrArg List.length h2
  simp at h3

theorem product_of_dict_id (v : PyVal) (i : String) : (product_of_dict v i).id = i := rfl

theorem labelProducts_length : ∀ (vs : List PyVal) (n : Nat),
    (labelProducts vs n).length = vs.length
  | [], _ => rfl
  | _ :: vs, n => by simp [labelProducts, labelProducts_length vs (n + 1)]

theorem labelProducts_mem : ∀ {p : Product} (vs : List PyVal) (n : Nat),
    p ∈ labelProducts vs n → ∃ v ∈ vs, ∃ k, n ≤ k ∧ p = product_of_dict v (genUuid k)
  | p, [], _, h => absurd h (List.not_mem_nil p)
  | _, v :: vs, n, h => by
      rcases List.mem_cons.1 h with h1 | h1
      · exact ⟨v, List.mem_cons_self v vs, n, le_refl n, h1⟩
      · rcases labelProducts_mem vs (n + 1) h1 with ⟨w, hw, k, hk, hp⟩
        exact ⟨w, List.mem_cons_of_mem v hw, k, by omega, hp⟩

theorem labelProducts_ids_nodup : ∀ (vs : List PyVal) (n : Nat),
    ((labelProducts vs n).map Product.id).Nodup
  | [], _ => List.nodup_nil
  | v :: vs, n => by
      simp only [labelProducts, List.map_cons, List.nodup_cons]
      refine ⟨?_, labelProducts_ids_nodup vs (n + 1)⟩
      intro hmem
      rcases List.mem_map.1 hmem with ⟨q, hq, hid⟩
      rcases labelProducts_mem vs (n + 1) hq with ⟨w, _, k, hk, rfl⟩
      have hkn : k = n := genUuid_inj (by simpa [product_of_dict] using hid)
      omega

theorem labelProducts_pairwise : ∀ (vs : List PyVal) (n : Nat),
    vs.Pairwise (fun v w => attrsOf (product_of_dict v "") ≠ attrsOf (product_of_dict w "")) →
    (labelProducts vs n).Pairwise (fun p q => attrsOf p ≠ attrsOf q)
  | [], _, _ => List.Pairwise.nil
  | v :: vs, n, h => by
      rcases List.pairwise_cons.1 h with ⟨hhead, htail⟩
      refine List.pairwise_cons.2 ⟨?_, labelProducts_pairwise vs (n + 1) htail⟩
      intro q hq
      rcases labelProducts_mem vs (n + 1) hq with ⟨w, hw, k, _, rfl⟩
      have h2 := hhead w hw
      simpa [attrsOf, product_of_dict] using h2

theorem labelLocations_names : ∀ (names : List String) (n : Nat),
    (labelLocations names n).map Location.name = names
  | [], _ => rfl
  | s :: rest, n => by simp [labelLocations, labelLocations_names rest (n + 1)]

theorem labelLocations_mem : ∀ {loc : Location} (names : List String) (n : Nat),
    loc ∈ labelLocations names n →
      ∃ s ∈ names, ∃ k, n ≤ k ∧ loc = { id := genUuid k, name := s }
  | loc, [], _, h => absurd h (List.not_mem_nil loc)
  | _, s :: rest, n, h => by
      rcases List.mem_cons.1 h with h1 | h1
      · exact ⟨s, List.mem_cons_self s rest, n, le_refl n, h1⟩
      · rcases labelLocations_mem rest (n + 1) h1 with ⟨t, ht, k, hk, hp⟩
        exact ⟨t, List.mem_cons_of_mem s ht, k, by omega, hp⟩

theorem labelLocations_ids_nodup : ∀ (names : List String) (n : Nat),
    ((labelLocations names n).map Location.id).Nodup
  | [], _ => List.nodup_nil
  | s :: rest, n => by
      simp only [labelLocations, List.map_cons, List.nodup_cons]
      refine ⟨?_, labelLocations_ids_nodup rest (n + 1)⟩
      intro hmem
      rcases List.mem_map.1 hmem with ⟨q, hq, hid⟩
      rcases labelLocations_mem rest (n + 1) hq with ⟨t, _, k, hk, rfl⟩
      have hkn : k = n := genUuid_inj hid
      omega

theorem cacheGet_cacheAdd (c : Cache) (k v : String) :
    cacheGet (cacheAdd c k v) k = some v := by
  simp [cacheGet, cacheAdd]

theorem queryOne_single (r : String) : queryOne [r] = .ok r := rfl

theorem queryOne_not_single {rows : List String} (h : rows.length ≠ 1) :
    ∃ e, queryOne rows = .error e := by
  cases rows with
  | nil => exact ⟨"NoResultFound", rfl⟩
  | cons r rest =>
      cases rest with
      | nil => simp at h
      | cons r2 rest2 => exact ⟨"MultipleResultsFound", rfl⟩

theorem resolve_product_second (db : DB) (c : Cache) (b : BasketAttrs) {i : String}
    {c1 : Cache} {q : Nat}
    (h : _get_existing_product_id db c b = (.ok i, c1, q)) (hne : i ≠ "") :
    _get_existing_product_id db c1 b = (.ok i, c1, 0) := by
  simp only [_get_existing_product_id] at h ⊢
  by_cases hf : pyFalsy (cacheGet c (product_cache_key b))
  · rw [if_pos hf] at h
    cases hq : queryOne (productQuery db b) with
    | ok j =>
        rw [hq] at h
        simp only [Prod.mk.injEq, Except.ok.injEq] at h
        obtain ⟨rfl, rfl, rfl⟩ := h
        rw [cacheGet_cacheAdd]
        simp [pyFalsy, hne]
    | error e =>
        rw [hq] at h
        simp at h
  · rw [if_neg hf] at h
    simp only [Prod.mk.injEq, Except.ok.injEq] at h
    obtain ⟨hi, rfl, rfl⟩ := h
    rw [if_neg hf, hi]

theorem runCmd_persisted (s : ScopeState) (c : Cmd) : (runCmd s c).2.persisted = s.persisted := by
  cases c with
  | add_products ps => rfl
  | add_locations ls => rfl
  | add_basket_items bs => rfl
  | resolve_product b =>
      rcases h : _get_existing_product_id s.persisted s.cache b with ⟨r, c2, q⟩
      cases r <;> simp [runCmd, h]
  | resolve_location name =>
      rcases h : _get_existing_location_id s.persisted s.cache name with ⟨r, c2, q⟩
      cases r <;> simp [runCmd, h]
  | failWith e => rfl

theorem runCmd_conn (s : ScopeState) (c : Cmd) : (runCmd s c).2.conn = s.conn := by
  cases c with
  | add_products ps => rfl
  | add_locations ls => rfl
  | add_basket_items bs => rfl
  | resolve_product b =>
      rcases h : _get_existing_product_id s.persisted s.cache b with ⟨r, c2, q⟩
      cases r <;> simp [runCmd, h]
  | resolve_location name =>
      rcases h : _get_existing_location_id s.persisted s.cache name with ⟨r, c2, q⟩
      cases r <;> simp [runCmd, h]
  | failWith e => rfl

theorem runCmds_persisted : ∀ (cs : List Cmd) (s : ScopeState),
    (runCmds cs s).2.persisted = s.persisted
  | [], _ => rfl
  | c :: cs, s => by
      have hp := runCmd_persisted s c
      rcases h : runCmd s c with ⟨r, s1⟩
      rw [h] at hp
      cases r with
      | none => simp only [runCmds, h]; rw [runCmds_persisted cs s1]; exact hp
      | some e => simp only [runCmds, h]; exact hp

theorem runCmds_conn : ∀ (cs : List Cmd) (s : ScopeState),
    (runCmds cs s).2.conn = s.conn
  | [], _ => rfl
  | c :: cs, s => by
      have hp := runCmd_conn s c
      rcases h : runCmd s c with ⟨r, s1⟩
      rw [h] at hp
      cases r with
      | none => simp only [runCmds, h]; rw [runCmds_conn cs s1]; exact hp
      | some e => simp only [runCmds, h]; exact hp

/-- Claim C1: the claim states that `conn.info["ignore_tables"]` is restored
to its prior value after a `session_context_manager` scope exits.  The code
saves the prior value into the local `previous` but never writes it back
(contradicting its own comment, which announces a restoration before
`session.close()`), so the marking set by the scope is still in place after
the scope exits: with the prior marking `["t1"]`, a scope entered with
`["t2"]` leaves `["t2"]` behind. -/
theorem claim_C1_marking_not_restored :
    (session_context_manager ["t2"] []
        { persisted := emptyDB, staged := emptyDB, cache := [],
          conn := { ignore_tables := some ["t1"] }, queries := 0 }).2.1.conn.ignore_tables
        = some ["t2"]
    ∧ (session_context_manager ["t2"] []
        { persisted := emptyDB, staged := emptyDB, cache := [],
          conn := { ignore_tables := some ["t1"] }, queries := 0 }).2.1.conn.ignore_tables
        ≠ some ["t1"] := by
  constructor
  · decide
  · decide

/-- Claim C6: for every transaction batch, the set of names of the Location
records returned by `get_locations` equals the set of distinct `location`
values of the input transactions, and the generated identifiers are pairwise
distinct within the output. -/
theorem claim_C6_get_locations (transactions : List InputTransaction) (n0 : Nat) :
    (∀ s : String,
        s ∈ (get_locations transactions n0).map Location.name ↔
          s ∈ transactions.map InputTransaction.location)
    ∧ ((get_locations transactions n0).map Location.id).Nodup := by
  constructor
  · intro s
    rw [get_locations, labelLocations_names]
    exact List.mem_dedup
  · exact labelLocations_ids_nodup _ _

/-- Claim C9: product and location resolutions share one cache namespace and
the product key is the comma-space join of the stringified attribute values,
so distinct lookups can collide: two different attribute tuples build the
same key, and a location whose name equals the joined string is served the
product's cached identifier without a query (here `"p1"`, the product row's
identifier, although the location row has identifier `"l1"`). -/
theorem claim_C9_shared_cache_namespace :
    (product_cache_key { name := "a, b", flavour := "c", size := "d", iced := false }
        = product_cache_key { name := "a", flavour := "b, c", size := "d", iced := false })
    ∧ ({ name := "a, b", flavour := "c", size := "d", iced := false } : BasketAttrs)
        ≠ { name := "a", flavour := "b, c", size := "d", iced := false }
    ∧ _get_existing_product_id
        { products := [{ id := "p1", name := "Latte", flavour := "Vanilla",
                         size := "M", iced := false }],
          locations := [{ id := "l1", name := "Latte, Vanilla, M, False" }],
          basket_items := [] }
        [] { name := "Latte", flavour := "Vanilla", size := "M", iced := false }
        = (.ok "p1", [("Latte, Vanilla, M, False", "p1")], 1)
    ∧ _get_existing_location_id
        { products := [{ id := "p1", name := "Latte", flavour := "Vanilla",
                         size := "M", iced := false }],
          locations := [{ id := "l1", name := "Latte, Vanilla, M, False" }],
          basket_items := [] }
        [("Latte, Vanilla, M, False", "p1")] "Latte, Vanilla, M, False"
        = (.ok "p1", [("Latte, Vanilla, M, False", "p1")], 0) := by
  refine ⟨by decide, by decide, by decide, by decide⟩

/-- Claim C4, counterexample: the claim states that the second resolution of
the same attribute tuple never issues a query.  When the persisted row's
identifier is the empty string (falsy in Python), `if not result:` treats the
cached value as missing: the second resolution issues a query again (third
component 1, not 0), and adds a duplicate cache entry. -/
theorem claim_C4_counterexample :
    _get_existing_product_id
        { products := [{ id := "", name := "Latte", flavour := "Vanilla",
                         size := "M", iced := false }],
          locations := [], basket_items := [] }
        [] { name := "Latte", flavour := "Vanilla", size := "M", iced := false }
        = (.ok "", [("Latte, Vanilla, M, False", "")], 1)
    ∧ _get_existing_product_id
        { products := [{ id := "", name := "Latte", flavour := "Vanilla",
                         size := "M", iced := false }],
          locations := [], basket_items := [] }
        [("Latte, Vanilla, M, False", "")]
        { name := "Latte", flavour := "Vanilla", size := "M", iced := false }
        = (.ok "", [("Latte, Vanilla, M, False", ""), ("Latte, Vanilla, M, False", "")], 1)
    ∧ (1 : Nat) ≠ 0 := by
  refine ⟨by decide, by decide, by decide⟩

/-- Claim C4, amended: if a resolution of an attribute tuple succeeds with a
non-empty identifier, then resolving the same tuple again returns the same
identifier, leaves the cache unchanged, and issues no query (it is served
from the cache populated by the first resolution).  The non-emptiness
proviso is forced by the `if not result:` truthiness test in the source. -/
theorem claim_C4_amended (db : DB) (c : Cache) (b : BasketAttrs) (i : String)
    (c1 : Cache) (q : Nat)
    (h : _get_existing_product_id db c b = (.ok i, c1, q)) (hne : i ≠ "") :
    _get_existing_product_id db c1 b = (.ok i, c1, 0) :=
  resolve_product_second db c b h hne

/-- Witness for claim C4: a concrete first resolution against a persisted row
with identifier `"p1"`, followed by the second resolution served from the
cache with no query. -/
theorem claim_C4_witness :
    _get_existing_product_id
        { products := [{ id := "p1", name := "Latte", flavour := "Vanilla",
                         size := "M", iced := false }],
          locations := [], basket_items := [] }
        [] { name := "Latte", flavour := "Vanilla", size := "M", iced := false }
        = (.ok "p1", [("Latte, Vanilla, M, False", "p1")], 1)
    ∧ _get_existing_product_id
        { products := [{ id := "p1", name := "Latte", flavour := "Vanilla",
                         size := "M", iced := false }],
          locations := [], basket_items := [] }
        [("Latte, Vanilla, M, False", "p1")]
        { name := "Latte", flavour := "Vanilla", size := "M", iced := false }
        = (.ok "p1", [("Latte, Vanilla, M, False", "p1")], 0) :=
  ⟨by decide,
   claim_C4_amended
     { products := [{ id := "p1", name := "Latte", flavour := "Vanilla",
                      size := "M", iced := false }],
       locations := [], basket_items := [] }
     [] { name := "Latte", flavour := "Vanilla", size := "M", iced := false }
     "p1" [("Latte, Vanilla, M, False", "p1")] 1 (by decide) (by decide)⟩

/-- Claim C5: on a true cache miss (the key is absent), each resolver issues
the exact-match query; with exactly one matching persisted row the identifier
is cached under the constructed key and returned, and with zero or several
matching rows a lookup error is raised, is not caught locally, and aborts the
enclosing transactional scope (error propagated, persisted rows unchanged,
staged rows rolled back). -/
theorem claim_C5_resolver_lookup (db : DB) (c : Cache) (b : BasketAttrs) (name : String) :
    (cacheGet c (product_cache_key b) = none →
      (∀ i, productQuery db b = [i] →
          _get_existing_product_id db c b = (.ok i, cacheAdd c (product_cache_key b) i, 1))
      ∧ ((productQuery db b).length ≠ 1 →
          ∃ e, _get_existing_product_id db c b = (.error e, c, 1)))
    ∧ (cacheGet c name = none →
      (∀ i, locationQuery db name = [i] →
          _get_existing_location_id db c name = (.ok i, cacheAdd c name i, 1))
      ∧ ((locationQuery db name).length ≠ 1 →
          ∃ e, _get_existing_location_id db c name = (.error e, c, 1)))
    ∧ (∀ (it : List String) (s0 : ScopeState),
        cacheGet s0.cache (product_cache_key b) = none →
        (productQuery s0.persisted b).length ≠ 1 →
        ∃ e, (session_context_manager it [Cmd.resolve_product b] s0).1 = some e
          ∧ (session_context_manager it [Cmd.resolve_product b] s0).2.1.persisted = s0.persisted
          ∧ (session_context_manager it [Cmd.resolve_product b] s0).2.1.staged = emptyDB) := by
  refine ⟨?_, ?_, ?_⟩
  · intro hc
    constructor
    · intro i hi
      simp [_get_existing_product_id, hc, pyFalsy, hi, queryOne]
    · intro hlen
      rcases queryOne_not_single hlen with ⟨e, he⟩
      exact ⟨e, by simp [_get_existing_product_id, hc, pyFalsy, he]⟩
  · intro hc
    constructor
    · intro i hi
      simp [_get_existing_location_id, hc, pyFalsy, hi, queryOne]
    · intro hlen
      rcases queryOne_not_single hlen with ⟨e, he⟩
      exact ⟨e, by simp [_get_existing_location_id, hc, pyFalsy, he]⟩
  · intro it s0 hc hlen
    rcases queryOne_not_single hlen with ⟨e, he⟩
    have h1 : _get_existing_product_id s0.persisted s0.cache b = (.error e, s0.cache, 1) := by
      simp [_get_existing_product_id, hc, pyFalsy, he]
    exact ⟨e, by simp [session_context_manager, runCmds, runCmd, h1]⟩

/-- Witness for claim C5: a hit of exactly one row for each resolver, and a
zero-match lookup aborting a concrete scope. -/
theorem claim_C5_witness :
    _get_existing_product_id
        { products := [{ id := "pid", name := "N", flavour := "F", size := "S", iced := true }],
          locations := [{ id := "lid", name := "L" }], basket_items := [] }
        [] { name := "N", flavour := "F", size := "S", iced := true }
        = (.ok "pid", cacheAdd []
            (product_cache_key { name := "N", flavour := "F", size := "S", iced := true })
            "pid", 1)
    ∧ _get_existing_location_id
        { products := [{ id := "pid", name := "N", flavour := "F", size := "S", iced := true }],
          locations := [{ id := "lid", name := "L" }], basket_items := [] }
        [] "L" = (.ok "lid", cacheAdd [] "L" "lid", 1)
    ∧ (∃ e, (session_context_manager []
          [Cmd.resolve_product { name := "N", flavour := "F", size := "S", iced := true }]
          { persisted := emptyDB, staged := emptyDB, cache := [],
            conn := { ignore_tables := none }, queries := 0 }).1 = some e
        ∧ (session_context_manager []
          [Cmd.resolve_product { name := "N", flavour := "F", size := "S", iced := true }]
          { persisted := emptyDB, staged := emptyDB, cache := [],
            conn := { ignore_tables := none }, queries := 0 }).2.1.persisted
          = ({ persisted := emptyDB, staged := emptyDB, cache := [],
               conn := { ignore_tables := none }, queries := 0 } : ScopeState).persisted
        ∧ (session_context_manager []
          [Cmd.resolve_product { name := "N", flavour := "F", size := "S", iced := true }]
          { persisted := emptyDB, staged := emptyDB, cache := [],
            conn := { ignore_tables := none }, queries := 0 }).2.1.staged = emptyDB) :=
  ⟨((claim_C5_resolver_lookup
      { products := [{ id := "pid", name := "N", flavour := "F", size := "S", iced := true }],
        locations := [{ id := "lid", name := "L" }], basket_items := [] }
      [] { name := "N", flavour := "F", size := "S", iced := true } "L").1
      (by decide)).1 "pid" (by decide),
   ((claim_C5_resolver_lookup
      { products := [{ id := "pid", name := "N", flavour := "F", size := "S", iced := true }],
        locations := [{ id := "lid", name := "L" }], basket_items := [] }
      [] { name := "N", flavour := "F", size := "S", iced := true } "L").2.1
      (by decide)).1 "lid" (by decide),
   (claim_C5_resolver_lookup emptyDB []
      { name := "N", flavour := "F", size := "S", iced := true } "L").2.2 []
      { persisted := emptyDB, staged := emptyDB, cache := [],
        conn := { ignore_tables := none }, queries := 0 }
      (by decide) (by decide)⟩

/-- Claim C8, counterexample: the claim states that after a failed scope the
cache still holds every resolved identifier (true) and that a later
resolution of the same attributes is therefore served from the cache with no
query.  If the identifier resolved in the failed scope is the empty string,
the later resolution re-queries (query count 1) because `if not result:`
treats the cached empty string as missing. -/
theorem claim_C8_counterexample :
    (session_context_manager []
        [Cmd.resolve_product { name := "Latte", flavour := "Vanilla", size := "M", iced := false },
         Cmd.failWith "boom"]
        { persisted := { products := [{ id := "", name := "Latte", flavour := "Vanilla",
                                        size := "M", iced := false }],
                         locations := [], basket_items := [] },
          staged := emptyDB, cache := [], conn := { ignore_tables := none },
          queries := 0 }).1 = some "boom"
    ∧ (session_context_manager []
        [Cmd.resolve_product { name := "Latte", flavour := "Vanilla", size := "M", iced := false },
         Cmd.failWith "boom"]
        { persisted := { products := [{ id := "", name := "Latte", flavour := "Vanilla",
                                        size := "M", iced := false }],
                         locations := [], basket_items := [] },
          staged := emptyDB, cache := [], conn := { ignore_tables := none },
          queries := 0 }).2.1.cache = [("Latte, Vanilla, M, False", "")]
    ∧ (_get_existing_product_id emptyDB [("Latte, Vanilla, M, False", "")]
        { name := "Latte", flavour := "Vanilla", size := "M", iced := false }).2.2 = 1 := by
  refine ⟨by decide, by decide, by decide⟩

/-- Claim C8, amended: the cache after a `session_context_manager` scope is
exactly the cache at the point the body finished or raised (neither commit,
rollback nor close touches it), and a later resolution of attributes whose
key is cached with a non-empty identifier returns that identifier with no
query against any database state, in particular one in which the
corresponding row was never committed.  The non-emptiness proviso is forced
by the `if not result:` truthiness test in the source. -/
theorem claim_C8_amended :
    (∀ (it : List String) (body : List Cmd) (s0 : ScopeState),
        (session_context_manager it body s0).2.1.cache =
          (runCmds body { s0 with conn := { ignore_tables := some it.dedup } }).2.cache)
    ∧ (∀ (db : DB) (c : Cache) (b : BasketAttrs) (i : String),
        cacheGet c (product_cache_key b) = some i → i ≠ "" →
        _get_existing_product_id db c b = (.ok i, c, 0)) := by
  constructor
  · intro it body s0
    unfold session_context_manager
    rcases h : runCmds body { s0 with conn := { ignore_tables := some it.dedup } } with ⟨r, s2⟩
    cases r <;> simp [h]
  · intro db c b i h hne
    simp [_get_existing_product_id, h, pyFalsy, hne]

/-- Witness for claim C8: a concrete failed scope whose resolved identifier
`"p1"` survives the rollback, and a later resolution of the same attributes
against an empty database returning `"p1"` from the cache with no query. -/
theorem claim_C8_witness :
    (session_context_manager []
        [Cmd.resolve_product { name := "Latte", flavour := "Vanilla", size := "M", iced := false },
         Cmd.failWith "boom"]
        { persisted := { products := [{ id := "p1", name := "Latte", flavour := "Vanilla",
                                        size := "M", iced := false }],
                         locations := [], basket_items := [] },
          staged := emptyDB, cache := [], conn := { ignore_tables := none },
          queries := 0 }).2.1.cache =
      (runCmds
        [Cmd.resolve_product { name := "Latte", flavour := "Vanilla", size := "M", iced := false },
         Cmd.failWith "boom"]
        { persisted := { products := [{ id := "p1", name := "Latte", flavour := "Vanilla",
                                        size := "M", iced := false }],
                         locations := [], basket_items := [] },
          staged := emptyDB, cache := [],
          conn := { ignore_tables := some (List.dedup []) }, queries := 0 }).2.cache
    ∧ _get_existing_product_id emptyDB [("Latte, Vanilla, M, False", "p1")]
        { name := "Latte", flavour := "Vanilla", size := "M", iced := false }
        = (.ok "p1", [("Latte, Vanilla, M, False", "p1")], 0) :=
  ⟨claim_C8_amended.1 []
      [Cmd.resolve_product { name := "Latte", flavour := "Vanilla", size := "M", iced := false },
       Cmd.failWith "boom"]
      { persisted := { products := [{ id := "p1", name := "Latte", flavour := "Vanilla",
                                      size := "M", iced := false }],
                       locations := [], basket_items := [] },
        staged := emptyDB, cache := [], conn := { ignore_tables := none },
        queries := 0 },
   claim_C8_amended.2 emptyDB [("Latte, Vanilla, M, False", "p1")]
      { name := "Latte", flavour := "Vanilla", size := "M", iced := false } "p1"
      (by decide) (by decide)⟩

theorem scm_eq (it : List String) (body : List Cmd) (s0 : ScopeState) :
    session_context_manager it body s0 =
      (match runCmds body { s0 with conn := { ignore_tables := some it.dedup } } with
        | (none, s2) =>
            (none, { s2 with persisted := mergeDB s2.persisted s2.staged, staged := emptyDB },
              true)
        | (some e, s2) => (some e, { s2 with staged := emptyDB }, true)) := rfl

/-- Claim C3: in every use of `session_context_manager`, the session is closed
in every outcome; if the body raises any error, the same error is re-raised,
the staged rows are discarded and the persisted rows are exactly those before
the scope (rollback, no partial writes); if the body completes, all rows it
staged are appended to the persisted rows in one step (atomic commit) and the
staged set is emptied. -/
theorem claim_C3_scope_semantics (it : List String) (body : List Cmd) (s0 : ScopeState) :
    (session_context_manager it body s0).2.2 = true
    ∧ (∀ e,
        (runCmds body { s0 with conn := { ignore_tables := some it.dedup } }).1 = some e →
        session_context_manager it body s0 =
          (some e,
            { (runCmds body { s0 with conn := { ignore_tables := some it.dedup } }).2 with
                staged := emptyDB },
            true)
        ∧ (session_context_manager it body s0).2.1.persisted = s0.persisted)
    ∧ ((runCmds body { s0 with conn := { ignore_tables := some it.dedup } }).1 = none →
        session_context_manager it body s0 =
          (none,
            { (runCmds body { s0 with conn := { ignore_tables := some it.dedup } }).2 with
                persisted := mergeDB s0.persisted
                  (runCmds body
                    { s0 with conn := { ignore_tables := some it.dedup } }).2.staged,
                staged := emptyDB },
            true)) := by
  have hp : (runCmds body { s0 with conn := { ignore_tables := some it.dedup } }).2.persisted
      = s0.persisted :=
    runCmds_persisted body { s0 with conn := { ignore_tables := some it.dedup } }
  rcases h : runCmds body { s0 with conn := { ignore_tables := some it.dedup } } with ⟨r, s2⟩
  rw [h] at hp
  have hp2 : s2.persisted = s0.persisted := hp
  cases r with
  | none =>
      refine ⟨by simp [scm_eq, h], ?_, ?_⟩
      · intro e he
        exact absurd he (by simp)
      · intro _
        simp [scm_eq, h, hp2]
  | some e0 =>
      refine ⟨by simp [scm_eq, h], ?_, ?_⟩
      · intro e he
        have he2 : e0 = e := by simpa using he
        subst he2
        exact ⟨by simp [scm_eq, h], by simp [scm_eq, h, hp2]⟩
      · intro he
        exact absurd he (by simp)

/-- Witness for claim C3: a concrete failing body (error re-raised, persisted
rows unchanged) and a concrete successful body (staged row committed). -/
theorem claim_C3_witness :
    (session_context_manager [] [Cmd.failWith "boom"]
        { persisted := { products := [{ id := "p0", name := "N", flavour := "F",
                                        size := "S", iced := false }],
                         locations := [], basket_items := [] },
          staged := emptyDB, cache := [], conn := { ignore_tables := none },
          queries := 0 }).1 = some "boom"
    ∧ (session_context_manager [] [Cmd.failWith "boom"]
        { persisted := { products := [{ id := "p0", name := "N", flavour := "F",
                                        size := "S", iced := false }],
                         locations := [], basket_items := [] },
          staged := emptyDB, cache := [], conn := { ignore_tables := none },
          queries := 0 }).2.1.persisted =
      ({ persisted := { products := [{ id := "p0", name := "N", flavour := "F",
                                       size := "S", iced := false }],
                        locations := [], basket_items := [] },
         staged := emptyDB, cache := [], conn := { ignore_tables := none },
         queries := 0 } : ScopeState).persisted
    ∧ (session_context_manager []
        [Cmd.add_locations [{ id := "l9", name := "L9" }]]
        { persisted := emptyDB, staged := emptyDB, cache := [],
          conn := { ignore_tables := none }, queries := 0 }).2.2 = true :=
  ⟨congrArg (fun t => t.1)
      ((claim_C3_scope_semantics [] [Cmd.failWith "boom"]
        { persisted := { products := [{ id := "p0", name := "N", flavour := "F",
                                        size := "S", iced := false }],
                         locations := [], basket_items := [] },
          staged := emptyDB, cache := [], conn := { ignore_tables := none },
          queries := 0 }).2.1 "boom" (by decide)).1,
   ((claim_C3_scope_semantics [] [Cmd.failWith "boom"]
      { persisted := { products := [{ id := "p0", name := "N", flavour := "F",
                                      size := "S", iced := false }],
                       locations := [], basket_items := [] },
        staged := emptyDB, cache := [], conn := { ignore_tables := none },
        queries := 0 }).2.1 "boom" (by decide)).2,
   (claim_C3_scope_semantics []
      [Cmd.add_locations [{ id := "l9", name := "L9" }]]
      { persisted := emptyDB, staged := emptyDB, cache := [],
        conn := { ignore_tables := none }, queries := 0 }).1⟩

/-- Claim C2: for every input transaction list, the products produced by
`get_unique_products` have pairwise distinct (name, flavour, size, iced)
identity keys, there are at most as many products as input basket items, and
the generated identifiers are pairwise distinct within the output. -/
theorem claim_C2_unique_products (transactions : List InputTransaction) (n0 : Nat) :
    (get_unique_products transactions n0).Pairwise (fun p q => attrsOf p ≠ attrsOf q)
    ∧ (get_unique_products transactions n0).length
        ≤ ((transactions.map InputTransaction.basket).flatten).length
    ∧ ((get_unique_products transactions n0).map Product.id).Nodup := by
  refine ⟨?_, ?_, labelProducts_ids_nodup _ _⟩
  · unfold get_unique_products
    apply labelProducts_pairwise
    have hnd :=
      dedupe_nodup (((transactions.map InputTransaction.basket).flatten).map BasketAttrs.toPy)
    refine List.Pairwise.imp_of_mem ?_ hnd
    intro v w hv hw hvw
    rcases dedupe_from_input _ v hv with ⟨m1, hm1, rfl⟩
    rcases List.mem_map.1 hm1 with ⟨b1, _, rfl⟩
    rcases dedupe_from_input _ w hw with ⟨m2, hm2, rfl⟩
    rcases List.mem_map.1 hm2 with ⟨b2, _, rfl⟩
    intro heq
    have h1 : attrsOf (product_of_dict (loads (dumps (BasketAttrs.toPy b1))) "")
        = (b1.name, b1.flavour, b1.size, b1.iced) := rfl
    have h2 : attrsOf (product_of_dict (loads (dumps (BasketAttrs.toPy b2))) "")
        = (b2.name, b2.flavour, b2.size, b2.iced) := rfl
    rw [h1, h2] at heq
    simp only [Prod.mk.injEq] at heq
    have hb : b1 = b2 := by
      cases b1
      cases b2
      simp only at heq
      simp [heq.1, heq.2.1, heq.2.2.1, heq.2.2.2]
    exact hvw (by rw [hb])
  · unfold get_unique_products
    rw [labelProducts_length]
    calc (_deduplicate_products
            (((transactions.map InputTransaction.basket).flatten).map BasketAttrs.toPy)).length
        ≤ (((transactions.map InputTransaction.basket).flatten).map BasketAttrs.toPy).length :=
          dedupe_length_le _
      _ = ((transactions.map InputTransaction.basket).flatten).length := List.length_map _ _

/-- Claim C7, counterexample: the claim states that two mappings are removed
as duplicates exactly when they are structurally equal regardless of key
order.  The mappings with a tuple value and with the equal-content list value
are not structurally equal (tuples and lists are distinct in Python), yet
their sorted-key JSON serializations coincide, so `_deduplicate_products`
collapses them to a single mapping. -/
theorem claim_C7_counterexample :
    ¬ pyStructEq (.pdict (.cons "a" (.ptuple (.cons (.pint 1) .nil)) .nil))
        (.pdict (.cons "a" (.plist (.cons (.pint 1) .nil)) .nil))
    ∧ (.pdict (.cons "a" (.ptuple (.cons (.pint 1) .nil)) .nil) : PyVal)
        ≠ .pdict (.cons "a" (.plist (.cons (.pint 1) .nil)) .nil)
    ∧ (_deduplicate_products
        [.pdict (.cons "a" (.ptuple (.cons (.pint 1) .nil)) .nil),
         .pdict (.cons "a" (.plist (.cons (.pint 1) .nil)) .nil)]).length = 1 := by
  refine ⟨by decide, by decide, by decide⟩

/-- Claim C7, amended: `_deduplicate_products` removes duplicates where two
mappings count as duplicates exactly when their sorted-key JSON
serializations coincide; no two output elements share a serialization, every
input mapping's serialization is represented in the output, the output is
never longer than the input, the empty input yields the empty output (and the
function is total, modelling absence of error conditions); on values fixed by
the JSON round trip, serialization equality coincides with structural
equality regardless of key order. -/
theorem claim_C7_amended :
    (∀ li : List PyVal,
        ((_deduplicate_products li).map dumps).Nodup
        ∧ (∀ m ∈ li, ∃ o ∈ _deduplicate_products li, dumps o = dumps m)
        ∧ (_deduplicate_products li).length ≤ li.length)
    ∧ _deduplicate_products [] = []
    ∧ (∀ x y : PyVal, RoundTripFixed x → RoundTripFixed y →
        (dumps x = dumps y ↔ pyStructEq x y)) :=
  ⟨fun li => ⟨dedupe_map_dumps_nodup li, dedupe_represents li, dedupe_length_le li⟩,
   rfl,
   fun _ _ hx hy => dumps_eq_iff_structEq_of_fixed hx hy⟩

/-- Witness for claim C7: the representation part applied to a concrete
one-element input, and the fixed-point equivalence applied to concrete
round-trip-fixed values. -/
theorem claim_C7_witness :
    (∃ o ∈ _deduplicate_products [PyVal.pnull], dumps o = dumps PyVal.pnull)
    ∧ (dumps (PyVal.pstr "a") = dumps (PyVal.pstr "b")
        ↔ pyStructEq (PyVal.pstr "a") (PyVal.pstr "b")) :=
  ⟨(claim_C7_amended.1 [PyVal.pnull]).2.1 PyVal.pnull (by decide),
   claim_C7_amended.2.2 (PyVal.pstr "a") (PyVal.pstr "b") rfl rfl⟩

/-- Claim C10: every mapping returned by `_deduplicate_products` is the JSON
round trip (`loads` of the sorted-key `dumps`) of some input mapping, and not
necessarily an input mapping itself: for the input containing a tuple value,
the single output mapping carries the corresponding list value and is not a
member of the input list. -/
theorem claim_C10_roundtrip :
    (∀ (li : List PyVal), ∀ o ∈ _deduplicate_products li, ∃ m ∈ li, o = loads (dumps m))
    ∧ _deduplicate_products [.pdict (.cons "a" (.ptuple (.cons (.pint 1) .nil)) .nil)]
        = [.pdict (.cons "a" (.plist (.cons (.pint 1) .nil)) .nil)]
    ∧ (.pdict (.cons "a" (.plist (.cons (.pint 1) .nil)) .nil) : PyVal)
        ∉ [(.pdict (.cons "a" (.ptuple (.cons (.pint 1) .nil)) .nil) : PyVal)] :=
  ⟨fun li => dedupe_from_input li, by decide, by decide⟩

/-- Witness for claim C10: the round-trip representation applied to the
concrete one-element input. -/
theorem claim_C10_witness :
    ∃ m ∈ [PyVal.pnull], PyVal.pnull = loads (dumps m) :=
  claim_C10_roundtrip.1 [PyVal.pnull] PyVal.pnull (by decide)
